import Mathlib

/-!
Email triage client (static/js/app.js): request orchestration and result rendering.

A shallow embedding of the browser-side controller: the class-list operations it
performs on the page, the result renderer `showResult`, the two error banners, the
mode switch `setInputMode` and the two click handlers that submit a text or a file.

Modelling conventions

* A JavaScript string is a list of characters (`JsString`); a CSS class token is a
  Lean `String`, compared only for equality.
* `element.classList` is the ordered list of the element's class tokens.
* Elements that the script guards with a null test (`loadingOverlay`,
  `subCategoryText`, the five elements of the mode switch) are optional in the
  page; elements it dereferences without a test are taken to exist.
* A decoded JSON object carries string fields; a field that is absent or `null`
  is `none` (both are falsy and both take the `||` default).
* The millisecond clock is monotone. It advances while the handler is suspended at
  an `await`, and it may tick between the reading of `start` and the call of
  `showLoading(true)` that follows it; every other synchronous statement is
  stamped with the reading that precedes it.
-/

namespace EmailApp

/-! ## Strings -/

/-- JavaScript string, as its sequence of characters. -/
abbrev JsString := List Char

/-- ECMAScript `WhiteSpace` and `LineTerminator` code points: the characters that
`String.prototype.trim` strips. -/
def isWhiteSpace (c : Char) : Bool :=
  c.toNat = 0x09 || c.toNat = 0x0A || c.toNat = 0x0B || c.toNat = 0x0C || c.toNat = 0x0D ||
  c.toNat = 0x20 || c.toNat = 0xA0 || c.toNat = 0x1680 ||
  (0x2000 ≤ c.toNat && c.toNat ≤ 0x200A) ||
  c.toNat = 0x2028 || c.toNat = 0x2029 || c.toNat = 0x202F || c.toNat = 0x205F ||
  c.toNat = 0x3000 || c.toNat = 0xFEFF

/-- Method `String.prototype.trim`: strip white space from both ends. -/
def trim (s : JsString) : JsString :=
  ((s.dropWhile isWhiteSpace).reverse.dropWhile isWhiteSpace).reverse

/-- Lower case of one character, for the letters `A` to `Z`. -/
def lowerChar (c : Char) : Char :=
  if 65 ≤ c.toNat ∧ c.toNat ≤ 90 then Char.ofNat (c.toNat + 32) else c

/-- Method `String.prototype.toLowerCase` on the ASCII letters. The only characters
outside ASCII whose lower case contains an ASCII letter are U+0130 (to `i`
followed by U+0307) and U+212A (to `k`); neither can complete the word tested at
lines 62 and 64, so those tests are decided by the ASCII letters alone. -/
def toLowerCase (s : JsString) : JsString :=
  s.map lowerChar

/-- Method `String.prototype.includes`: does `needle` occur in `s` as a contiguous run? -/
def includes : JsString → JsString → Bool
  | [], needle => needle.isEmpty
  | c :: s, needle => needle.isPrefixOf (c :: s) || includes s needle

/-- Expression `value || fallback` for a string field that may be absent: the fallback is
taken when the field is absent, `null` or the empty string. -/
def orElse (value : Option JsString) (fallback : JsString) : JsString :=
  match value with
  | some (c :: s) => c :: s
  | _ => fallback

/-- Truthiness of a string field that may be absent. -/
def truthy (value : Option JsString) : Bool :=
  match value with
  | some (_ :: _) => true
  | _ => false

/-! ## Class lists -/

/-- Class tokens of an element, in order. -/
abbrev ClassList := List String

namespace classList

/-- Method `classList.add(...tokens)`: append each token that is not yet present. -/
def add (cl : ClassList) (tokens : List String) : ClassList :=
  tokens.foldl (fun acc t => if t ∈ acc then acc else acc ++ [t]) cl

/-- Method `classList.remove(...tokens)`: drop every listed token. -/
def remove (cl : ClassList) (tokens : List String) : ClassList :=
  cl.filter (fun c => decide (c ∉ tokens))

/-- Method `classList.toggle(token, force)`: add when `force` is true, remove otherwise. -/
def toggle (cl : ClassList) (token : String) (force : Bool) : ClassList :=
  if force then add cl [token] else remove cl [token]

end classList

/-! ## The page -/

/-- Element with text and classes (an error banner, the category badge). -/
structure TextElement where
  textContent : JsString
  classList : ClassList
  deriving DecidableEq, Repr

/-- File chosen in the file input. -/
structure File where
  name : JsString
  content : List Nat
  deriving DecidableEq, Repr

/-- The part of the document that the script reads and writes (lines 2 to 31). -/
structure Dom where
  /-- Property `emailText.value` -/
  emailText : JsString
  /-- Property `emailFile.files`; `none` when the property is null -/
  emailFile : Option (List File)
  textError : TextElement
  fileError : TextElement
  /-- Property `resultCard.classList` -/
  resultCard : ClassList
  categoryBadge : TextElement
  /-- Property `subCategoryText.textContent`, when the element exists -/
  subCategoryText : Option JsString
  /-- Property `reasonText.textContent` -/
  reasonText : JsString
  /-- Property `replyText.value` -/
  replyText : JsString
  /-- Property `loadingOverlay.classList`, when the element exists -/
  loadingOverlay : Option ClassList
  /-- Property `segmentedThumb.classList`, when the element exists -/
  segmentedThumb : Option ClassList
  /-- Property `panelText.classList`, when the element exists -/
  panelText : Option ClassList
  /-- Property `panelFile.classList`, when the element exists -/
  panelFile : Option ClassList
  /-- Property `modeTextBtn.classList`, when the element exists -/
  modeTextBtn : Option ClassList
  /-- Property `modeFileBtn.classList`, when the element exists -/
  modeFileBtn : Option ClassList
  deriving DecidableEq, Repr

/-- Decoded JSON object of a response body: the fields the script reads. -/
structure JsonObject where
  category : Option JsString
  sub_category : Option JsString
  reason : Option JsString
  auto_reply : Option JsString
  detail : Option JsString
  deriving DecidableEq, Repr

/-! ## Rendering -/

/-- Function `showLoading(show)`, lines 36 to 39. -/
def showLoading (shown : Bool) (d : Dom) : Dom :=
  match d.loadingOverlay with
  | none => d
  | some cl => { d with loadingOverlay := some (classList.toggle cl "hidden" (!shown)) }

/-- The six tier classes removed from the badge at lines 52 to 59. -/
def tierClasses : List String :=
  ["bg-emerald-500/10", "text-emerald-700", "bg-sky-500/10", "text-sky-700",
   "bg-slate-800", "text-slate-100"]

/-- Classes added to the badge by the chain of tests at lines 62 to 68, given the
lower-cased category. -/
def badgeClasses (lower : JsString) : List String :=
  if includes lower "produtivo".toList then ["bg-emerald-500/10", "text-emerald-700"]
  else if includes lower "improdutivo".toList then ["bg-sky-500/10", "text-sky-700"]
  else ["bg-slate-800", "text-slate-100"]

/-- Function `showResult(data)`, lines 44 to 78, for a decoded object `data`. -/
def showResult (data : JsonObject) (d : Dom) : Dom :=
  let category := trim (orElse data.category "-".toList)
  let subCategory := orElse data.sub_category []
  let reason := orElse data.reason []
  let reply := orElse data.auto_reply []
  let lower := toLowerCase category
  { d with
    categoryBadge :=
      { textContent := "Categoria: ".toList ++ category
        classList :=
          classList.add (classList.remove d.categoryBadge.classList tierClasses)
            (badgeClasses lower) }
    subCategoryText := d.subCategoryText.map (fun _ => orElse (some subCategory) "—".toList)
    reasonText := reason
    replyText := reply
    resultCard := classList.remove d.resultCard ["hidden"] }

/-- Body shared by `showTextError` and `showFileError`: set the text to
`msg || ""` and toggle `hidden` with `!msg`. -/
def showError (msg : JsString) (banner : TextElement) : TextElement :=
  { textContent := orElse (some msg) []
    classList := classList.toggle banner.classList "hidden" (!(truthy (some msg))) }

/-- Function `showTextError(msg)`, lines 83 to 86. -/
def showTextError (msg : JsString) (d : Dom) : Dom :=
  { d with textError := showError msg d.textError }

/-- Function `showFileError(msg)`, lines 91 to 94. -/
def showFileError (msg : JsString) (d : Dom) : Dom :=
  { d with fileError := showError msg d.fileError }

/-! ## Mode switch -/

/-- Function `setInputMode(mode)`, lines 146 to 172. -/
def setInputMode (mode : JsString) (d : Dom) : Dom :=
  match d.segmentedThumb, d.panelText, d.panelFile, d.modeTextBtn, d.modeFileBtn with
  | some thumb, some pText, some pFile, some bText, some bFile =>
    if mode = "text".toList then
      { d with
        segmentedThumb := some (classList.remove thumb ["segmented-thumb-right"])
        panelText := some (classList.remove pText ["hidden"])
        panelFile := some (classList.add pFile ["hidden"])
        modeTextBtn := some (classList.remove
          (classList.add bText ["text-slate-900", "dark:text-slate-100"])
          ["text-slate-500", "dark:text-slate-400"])
        modeFileBtn := some (classList.remove
          (classList.add bFile ["text-slate-500", "dark:text-slate-400"])
          ["text-slate-900", "dark:text-slate-100"]) }
    else
      { d with
        segmentedThumb := some (classList.add thumb ["segmented-thumb-right"])
        panelFile := some (classList.remove pFile ["hidden"])
        panelText := some (classList.add pText ["hidden"])
        modeFileBtn := some (classList.remove
          (classList.add bFile ["text-slate-900", "dark:text-slate-100"])
          ["text-slate-500", "dark:text-slate-400"])
        modeTextBtn := some (classList.remove
          (classList.add bText ["text-slate-500", "dark:text-slate-400"])
          ["text-slate-900", "dark:text-slate-100"]) }
  | _, _, _, _, _ => d

/-- The two input modes of the segmented control. -/
inductive InputMode
  | text
  | file
  deriving DecidableEq, Repr

/-- The string that the click handlers of lines 176 and 179 pass for a mode. -/
def InputMode.key : InputMode → JsString
  | .text => "text".toList
  | .file => "file".toList

/-- Default input mode set at start-up, line 332. (`initTheme`, line 331, writes
only the document root and the theme icon, which are not part of `Dom`.) -/
def initPage (page : Dom) : Dom :=
  setInputMode "text".toList page

/-- State after start-up followed by a sequence of mode selections. -/
def selectModes (page : Dom) (modes : List InputMode) : Dom :=
  modes.foldl (fun d m => setInputMode m.key d) (initPage page)

/-! ## Submission -/

/-- Body of a request: the JSON text of line 212 or the form data of line 264. -/
inductive Payload
  | json (text : JsString)
  | formData (file : File)
  deriving DecidableEq, Repr

/-- Request issued by `fetch`: the endpoint and the body sent with `POST`. -/
structure Request where
  url : JsString
  payload : Payload
  deriving DecidableEq, Repr

/-- Result of `await res.json()`: the promise rejects (`unparsable`), or resolves
to `null`, or resolves to a value whose properties can be read. A body that is a
number, a string, a boolean or an array reads as the object with no field. -/
inductive JsonBody
  | unparsable
  | null
  | object (o : JsonObject)
  deriving DecidableEq, Repr

/-- Result of `await fetch(...)`: the promise rejects (no response obtained), or
resolves to a response with its `ok` flag and its body. -/
inductive FetchResult
  | rejected
  | response (ok : Bool) (body : JsonBody)
  deriving DecidableEq, Repr

/-- What the handler does not control: the answer to each request, the time the
request and the body decoding take, by how much a timer overshoots, and by how
much the clock advances between the reading of `start` (lines 202 and 267) and
the call of `showLoading(true)` (lines 203 and 268). -/
structure Env where
  fetch : Request → FetchResult
  fetchTime : Nat
  jsonTime : Nat
  waitLag : Nat
  showLag : Nat

/-- Observable calls made by a handler. -/
inductive Effect
  | showTextError (msg : JsString)
  | showFileError (msg : JsString)
  | showLoading (shown : Bool)
  | fetch (req : Request)
  | wait (ms : Nat)
  | showResult (data : JsonObject)
  | consoleError
  deriving DecidableEq, Repr

/-- Execution state of a handler: the page, the clock reading of `Date.now()`,
the calls made so far, each with the clock reading at which it was made, and the
page as each call left it, with the same clock reading. -/
structure Run where
  dom : Dom
  now : Nat
  log : List (Nat × Effect)
  trace : List (Nat × Dom)
  deriving DecidableEq, Repr

/-- Record a call, apply its change to the page and record the page it leaves. -/
def Run.call (e : Effect) (f : Dom → Dom) (r : Run) : Run :=
  { r with dom := f r.dom, log := r.log ++ [(r.now, e)], trace := r.trace ++ [(r.now, f r.dom)] }

/-- Suspend at an `await` for `ms` milliseconds. -/
def Run.await (ms : Nat) (r : Run) : Run :=
  { r with now := r.now + ms }

/-- The clock advances by `ms` milliseconds between two synchronous statements. -/
def Run.tick (ms : Nat) (r : Run) : Run :=
  { r with now := r.now + ms }

/-- Constant `MIN_DELAY`, lines 201 and 266. -/
def MIN_DELAY : Nat := 350

/-- Function `wait(ms)`, lines 185 to 187, awaited: the timer fires after at least
`ms` milliseconds. -/
def wait (env : Env) (ms : Nat) (r : Run) : Run :=
  (r.call (.wait ms) id).await (ms + env.waitLag)

/-- The three statements `const elapsed = Date.now() - start; if (elapsed <
MIN_DELAY) await wait(MIN_DELAY - elapsed);` that precede every banner or result
update (lines 223, 232, 240, 284, 293, 301). -/
def enforceMinDelay (env : Env) (start : Nat) (r : Run) : Run :=
  let elapsed := r.now - start
  if elapsed < MIN_DELAY then wait env (MIN_DELAY - elapsed) r else r

/-- The statements `let errMsg = generic; try { const err = await res.json(); if
(err.detail) errMsg = err.detail; } catch {}` of lines 216 to 222 and 277 to 283. -/
def errorMessage (generic : JsString) (body : JsonBody) : JsString :=
  match body with
  | .object err => if truthy err.detail then err.detail.getD [] else generic
  | _ => generic

/-- Validation message of line 197. -/
def MSG_EMPTY_TEXT : JsString := "Por favor, cole o conteúdo de um e-mail antes de analisar.".toList

/-- Validation message of line 258. -/
def MSG_NO_FILE : JsString := "Selecione um arquivo .txt ou .pdf para analisar.".toList

/-- Generic message of line 216. -/
def MSG_TEXT_FAILED : JsString := "Erro ao analisar o texto.".toList

/-- Generic message of line 277. -/
def MSG_FILE_FAILED : JsString := "Erro ao analisar o arquivo.".toList

/-- Message of lines 244 and 305. -/
def MSG_CONNECTION : JsString := "Erro de conexão com o servidor.".toList

/-- The `catch (e)` block of a handler, lines 238 to 245 and 299 to 306;
`report` is the banner call of the handler. -/
def catchBlock (env : Env) (start : Nat) (report : JsString → Run → Run) (r : Run) : Run :=
  let r := r.call .consoleError id
  let r := enforceMinDelay env start r
  report MSG_CONNECTION r

/-- State in which `fetch` settles: the request is logged and its time has passed. -/
def afterFetch (env : Env) (req : Request) (r : Run) : Run :=
  (r.call (.fetch req) id).await env.fetchTime

/-- The `try` block of a handler from the point where `fetch` has been called,
with its `catch`, lines 206 to 245 and 271 to 306. -/
def tryBlock (env : Env) (start : Nat) (req : Request) (generic : JsString)
    (report : JsString → Run → Run) (r : Run) : Run :=
  let r := afterFetch env req r
  match env.fetch req with
  | .rejected => catchBlock env start report r
  | .response ok body =>
    if !ok then
      let r := r.await env.jsonTime
      let errMsg := errorMessage generic body
      let r := enforceMinDelay env start r
      report errMsg r
    else
      let r := r.await env.jsonTime
      match body with
      | .unparsable => catchBlock env start report r
      | .null =>
        -- `showResult(null)` throws at line 45, before any write
        let r := enforceMinDelay env start r
        catchBlock env start report r
      | .object data =>
        let r := enforceMinDelay env start r
        r.call (.showResult data) (showResult data)

/-- Call of `showTextError` by a handler. -/
def reportText (msg : JsString) (r : Run) : Run :=
  r.call (.showTextError msg) (showTextError msg)

/-- Call of `showFileError` by a handler. -/
def reportFile (msg : JsString) (r : Run) : Run :=
  r.call (.showFileError msg) (showFileError msg)

/-- Click handler of `analyzeTextBtn`, lines 191 to 248. -/
def analyzeTextClick (env : Env) (r : Run) : Run :=
  let r := reportText [] r
  let r := reportFile [] r
  let text := trim (orElse (some r.dom.emailText) [])
  if truthy (some text) then
    let start := r.now
    let r := r.tick env.showLag
    let r := r.call (.showLoading true) (showLoading true)
    let r := tryBlock env start ⟨"/analyze-text".toList, .json text⟩ MSG_TEXT_FAILED reportText r
    r.call (.showLoading false) (showLoading false)
  else
    reportText MSG_EMPTY_TEXT r

/-- Click handler of `analyzeFileBtn`, lines 253 to 309. -/
def analyzeFileClick (env : Env) (r : Run) : Run :=
  let r := reportText [] r
  let r := reportFile [] r
  match r.dom.emailFile with
  | some (file :: _) =>
    let start := r.now
    let r := r.tick env.showLag
    let r := r.call (.showLoading true) (showLoading true)
    let r := tryBlock env start ⟨"/analyze-file".toList, .formData file⟩ MSG_FILE_FAILED reportFile r
    r.call (.showLoading false) (showLoading false)
  | _ => reportFile MSG_NO_FILE r

/-- State of a handler when it enters `try`: both banners reset, `start` read and
`showLoading(true)` called. -/
def enterTry (env : Env) (r : Run) : Run :=
  ((reportFile [] (reportText [] r)).tick env.showLag).call (.showLoading true) (showLoading true)

/-- Request of the text handler, lines 206 to 213. -/
def textRequest (r : Run) : Request :=
  ⟨"/analyze-text".toList, .json (trim r.dom.emailText)⟩

/-- Request of the file handler, lines 271 to 274. -/
def fileRequest (file : File) : Request :=
  ⟨"/analyze-file".toList, .formData file⟩

/-! ## Observations on a run -/

/-- The calls of `showLoading` in a log, each with its clock reading. -/
def loadingEvents (log : List (Nat × Effect)) : List (Nat × Bool) :=
  log.filterMap (fun entry =>
    match entry.2 with
    | .showLoading shown => some (entry.1, shown)
    | _ => none)

/-- The requests sent in a log. -/
def requests (log : List (Nat × Effect)) : List Request :=
  log.filterMap (fun entry =>
    match entry.2 with
    | .fetch req => some req
    | _ => none)

/-- An element is visible when its class list lacks `hidden`. -/
def visible (cl : ClassList) : Prop :=
  "hidden" ∉ cl

instance (cl : ClassList) : Decidable (visible cl) := by
  unfold visible
  infer_instance

/-- The loading indicator is on display: the page has the overlay and the overlay
lacks `hidden`. -/
def indicatorShown (d : Dom) : Bool :=
  match d.loadingOverlay with
  | some cl => decide (visible cl)
  | none => false

/-- For each call of a trace, its clock reading and whether the loading indicator
is on display in the page the call leaves. -/
def indicatorTimeline (trace : List (Nat × Dom)) : List (Nat × Bool) :=
  trace.map (fun entry => (entry.1, indicatorShown entry.2))

/-- The run `after` continues `before` without touching the loading overlay: its
trace extends the trace of `before` by pages that have the overlay of `before`,
and so has its own page. -/
def KeepsOverlay (before after : Run) : Prop :=
  after.dom.loadingOverlay = before.dom.loadingOverlay
  ∧ ∃ ext, after.trace = before.trace ++ ext
      ∧ ∀ entry ∈ ext, entry.2.loadingOverlay = before.dom.loadingOverlay

/-- Terminal result of one submission, by the branch of the handler that ends it:
the validation `return`, the `!res.ok` branch, the `catch` block, or the call of
`showResult`. -/
inductive Outcome
  | success
  | validation
  | serverRejected
  | transport
  deriving DecidableEq, Repr

/-- Branch taken for an answer to the request. A success response whose body
cannot be decoded or is `null` raises an exception inside `try` and ends in the
`catch` block, like a request without response. -/
def responseOutcome : FetchResult → Outcome
  | .rejected => .transport
  | .response false _ => .serverRejected
  | .response true (.object _) => .success
  | .response true _ => .transport

/-- Outcome of a click on `analyzeTextBtn`. -/
def textOutcome (env : Env) (r : Run) : Outcome :=
  if trim r.dom.emailText = [] then .validation
  else responseOutcome (env.fetch ⟨"/analyze-text".toList, .json (trim r.dom.emailText)⟩)

/-- Outcome of a click on `analyzeFileBtn`. -/
def fileOutcome (env : Env) (r : Run) : Outcome :=
  match r.dom.emailFile with
  | some (file :: _) => responseOutcome (env.fetch ⟨"/analyze-file".toList, .formData file⟩)
  | _ => .validation

/-- What the proofs need to know of the banner call handed to `tryBlock`: it
keeps the clock, logs no `showLoading`, changes the page by `f` and leaves the
loading overlay alone. -/
structure IsReport (report : JsString → Run → Run) (f : JsString → Dom → Dom) : Prop where
  now : ∀ msg r, (report msg r).now = r.now
  dom : ∀ msg r, (report msg r).dom = f msg r.dom
  loading : ∀ msg r, loadingEvents (report msg r).log = loadingEvents r.log
  overlay : ∀ msg r, KeepsOverlay r (report msg r)

/-! ## Observations on the mode switch -/

/-- The page has the five elements that `setInputMode` tests at line 147. -/
def modeSwitchPresent (d : Dom) : Prop :=
  d.segmentedThumb.isSome = true ∧ d.panelText.isSome = true ∧ d.panelFile.isSome = true
    ∧ d.modeTextBtn.isSome = true ∧ d.modeFileBtn.isSome = true

instance (d : Dom) : Decidable (modeSwitchPresent d) := by
  unfold modeSwitchPresent
  infer_instance

/-- A mode button carries the classes of the active mode and none of the other. -/
def highlighted (cl : ClassList) : Prop :=
  "text-slate-900" ∈ cl ∧ "dark:text-slate-100" ∈ cl
    ∧ "text-slate-500" ∉ cl ∧ "dark:text-slate-400" ∉ cl

/-- A mode button carries the classes of the inactive mode and none of the other. -/
def dimmed (cl : ClassList) : Prop :=
  "text-slate-500" ∈ cl ∧ "dark:text-slate-400" ∈ cl
    ∧ "text-slate-900" ∉ cl ∧ "dark:text-slate-100" ∉ cl

/-- The page displays mode `m`: exactly one panel is visible and it is the panel of
`m`, the thumb sits on the right exactly for the file mode, and the button of `m`
is highlighted while the other is dimmed. -/
def ShowsMode (m : InputMode) (d : Dom) : Prop :=
  ∃ thumb pText pFile bText bFile,
    d.segmentedThumb = some thumb ∧ d.panelText = some pText ∧ d.panelFile = some pFile
    ∧ d.modeTextBtn = some bText ∧ d.modeFileBtn = some bFile
    ∧ (visible pText ↔ ¬ visible pFile)
    ∧ (visible pText ↔ m = .text) ∧ (visible pFile ↔ m = .file)
    ∧ ("segmented-thumb-right" ∈ thumb ↔ m = .file)
    ∧ (highlighted bText ↔ m = .text) ∧ (dimmed bText ↔ m = .file)
    ∧ (highlighted bFile ↔ m = .file) ∧ (dimmed bFile ↔ m = .text)

/-- Mode most recently set: the last selection, or the start-up default. -/
def currentMode (modes : List InputMode) : InputMode :=
  modes.getLast?.getD .text

/-- Two elements are both absent, or both present with the same set of classes. -/
def sameClasses : Option ClassList → Option ClassList → Prop
  | some a, some b => ∀ c, c ∈ a ↔ c ∈ b
  | none, none => True
  | _, _ => False

/-- Two pages agree on the classes of the five elements of the mode switch and on
everything else. -/
def sameModeView (a b : Dom) : Prop :=
  sameClasses a.segmentedThumb b.segmentedThumb
  ∧ sameClasses a.panelText b.panelText
  ∧ sameClasses a.panelFile b.panelFile
  ∧ sameClasses a.modeTextBtn b.modeTextBtn
  ∧ sameClasses a.modeFileBtn b.modeFileBtn
  ∧ { a with
      segmentedThumb := b.segmentedThumb, panelText := b.panelText, panelFile := b.panelFile,
      modeTextBtn := b.modeTextBtn, modeFileBtn := b.modeFileBtn } = b

/-! ## Sample inputs -/

/-- A page with a text and a file ready to submit, a stale text error on display
and the text panel active. -/
def samplePage : Dom where
  emailText := "Bom dia, preciso de suporte.".toList
  emailFile := some [⟨"mail.txt".toList, [79, 105]⟩]
  textError := ⟨"old".toList, ["text-sm"]⟩
  fileError := ⟨[], ["text-sm", "hidden"]⟩
  resultCard := ["hidden", "card"]
  categoryBadge := ⟨[], ["badge", "bg-slate-800", "text-slate-100"]⟩
  subCategoryText := some "old".toList
  reasonText := "old".toList
  replyText := "old".toList
  loadingOverlay := some ["overlay", "hidden"]
  segmentedThumb := some ["thumb"]
  panelText := some ["panel"]
  panelFile := some ["hidden", "panel"]
  modeTextBtn := some ["btn"]
  modeFileBtn := some ["btn"]

/-- A run that starts on `samplePage` at clock reading 1000. -/
def sampleRun : Run := ⟨samplePage, 1000, [], []⟩

/-- A run whose text area holds only white space. -/
def blankRun : Run :=
  ⟨{ samplePage with emailText := " \t\n ".toList }, 1000, [], []⟩

/-- An environment that gives every request the same answer and whose clock does
not tick between the reading of `start` and `showLoading(true)`. -/
def constEnv (answer : FetchResult) (fetchTime jsonTime waitLag : Nat) : Env :=
  ⟨fun _ => answer, fetchTime, jsonTime, waitLag, 0⟩

/-- A server that rejects with the detail `file too large`. -/
def tooLargeEnv : Env :=
  constEnv (.response false (.object ⟨none, none, none, none, some "file too large".toList⟩)) 40 2 0

/-- A server that rejects with an empty detail. -/
def emptyDetailEnv : Env :=
  constEnv (.response false (.object ⟨none, none, none, none, some []⟩)) 40 2 0

/-- The server of `fastEnv`, on a clock that ticks once between the reading of
`start` and `showLoading(true)`. -/
def tickEnv : Env :=
  ⟨fun _ => .response true (.object
    ⟨some "Produtivo".toList, none, some "pedido".toList, some "Recebido.".toList, none⟩),
   5, 1, 0, 1⟩

/-- A server that answers at once with a classification. -/
def fastEnv : Env :=
  constEnv (.response true (.object
    ⟨some "Produtivo".toList, none, some "pedido".toList, some "Recebido.".toList, none⟩)) 5 1 0

/-! ## Facts about strings and class lists -/

theorem dropWhile_eq_nil_of_all (p : Char → Bool) (s : JsString)
    (h : ∀ c ∈ s, p c = true) : s.dropWhile p = [] := by
  induction s with
  | nil => rfl
  | cons a s ih =>
    have ha : p a = true := h a (List.mem_cons_self a s)
    have hs : ∀ c ∈ s, p c = true := fun c hc => h c (List.mem_cons_of_mem a hc)
    simp [List.dropWhile, ha, ih hs]

theorem trim_eq_nil_of_blank (s : JsString) (h : ∀ c ∈ s, isWhiteSpace c = true) :
    trim s = [] := by
  simp [trim, dropWhile_eq_nil_of_all isWhiteSpace s h]

namespace classList

theorem mem_add (cl : ClassList) (tokens : List String) (c : String) :
    c ∈ add cl tokens ↔ c ∈ cl ∨ c ∈ tokens := by
  unfold add
  induction tokens generalizing cl with
  | nil => simp
  | cons t ts ih =>
    rw [List.foldl_cons, ih]
    by_cases ht : t ∈ cl
    · simp only [ht, if_true, List.mem_cons]
      constructor
      · rintro (h | h)
        · exact Or.inl h
        · exact Or.inr (Or.inr h)
      · rintro (h | h | h)
        · exact Or.inl h
        · exact Or.inl (h ▸ ht)
        · exact Or.inr h
    · simp only [ht, if_false, List.mem_append, List.mem_singleton, List.mem_cons]
      tauto

theorem mem_remove (cl : ClassList) (tokens : List String) (c : String) :
    c ∈ remove cl tokens ↔ c ∈ cl ∧ c ∉ tokens := by
  simp [remove]

theorem remove_remove (cl : ClassList) (tokens : List String) :
    remove (remove cl tokens) tokens = remove cl tokens := by
  simp [remove, List.filter_filter]

theorem remove_add_of_subset (cl : ClassList) (ts rs : List String) (h : ∀ t ∈ ts, t ∈ rs) :
    remove (add cl ts) rs = remove cl rs := by
  unfold add
  induction ts generalizing cl with
  | nil => rfl
  | cons t ts ih =>
    rw [List.foldl_cons, ih _ (fun x hx => h x (List.mem_cons_of_mem t hx))]
    have ht : t ∈ rs := h t (List.mem_cons_self t ts)
    by_cases hc : t ∈ cl
    · simp [hc]
    · simp [hc, remove, List.filter_append, ht]

end classList

theorem badgeClasses_subset (lower : JsString) : ∀ t ∈ badgeClasses lower, t ∈ tierClasses := by
  intro t ht
  unfold badgeClasses at ht
  unfold tierClasses
  split_ifs at ht <;> simp at ht <;> rcases ht with h | h <;> simp [h]

theorem isPrefixOf_iff_append (n l : JsString) :
    n.isPrefixOf l = true ↔ ∃ b, l = n ++ b := by
  induction n generalizing l with
  | nil => simp
  | cons x n ih =>
    cases l with
    | nil => simp [List.isPrefixOf]
    | cons y l =>
      simp only [List.isPrefixOf, Bool.and_eq_true, beq_iff_eq, ih, List.cons_append,
        List.cons.injEq]
      constructor
      · rintro ⟨rfl, b, rfl⟩
        exact ⟨b, rfl, rfl⟩
      · rintro ⟨b, rfl, rfl⟩
        exact ⟨rfl, b, rfl⟩

theorem includes_iff_append (s n : JsString) :
    includes s n = true ↔ ∃ a b, s = a ++ n ++ b := by
  induction s with
  | nil =>
    simp only [includes, List.isEmpty_iff]
    constructor
    · rintro rfl
      exact ⟨[], [], rfl⟩
    · rintro ⟨a, b, h⟩
      have h2 := congrArg List.length h
      simp only [List.length_nil, List.length_append] at h2
      exact List.length_eq_zero.mp (by omega)
  | cons c s ih =>
    simp only [includes, Bool.or_eq_true, isPrefixOf_iff_append, ih]
    constructor
    · rintro (⟨b, h⟩ | ⟨a, b, h⟩)
      · exact ⟨[], b, by simpa using h⟩
      · exact ⟨c :: a, b, by simp [h]⟩
    · rintro ⟨a, b, h⟩
      cases a with
      | nil => exact Or.inl ⟨b, by simpa using h⟩
      | cons x a =>
        simp only [List.cons_append, List.cons.injEq] at h
        exact Or.inr ⟨a, b, h.2⟩

/-- The test of line 64 can only succeed when the test of line 62 has succeeded:
every string that includes `improdutivo` includes `produtivo`. -/
theorem includes_improdutivo_imp (lower : JsString)
    (h : includes lower "improdutivo".toList = true) :
    includes lower "produtivo".toList = true := by
  rw [includes_iff_append] at h ⊢
  obtain ⟨a, b, h⟩ := h
  refine ⟨a ++ "im".toList, b, ?_⟩
  rw [h]
  simp

/-- The branch of line 65 is never taken: no category gets the sky classes. -/
theorem badgeClasses_ne_sky (lower : JsString) :
    badgeClasses lower ≠ ["bg-sky-500/10", "text-sky-700"] := by
  unfold badgeClasses
  by_cases h1 : includes lower "produtivo".toList = true
  · rw [if_pos h1]
    decide
  · have h2 : ¬ includes lower "improdutivo".toList = true :=
      fun h => h1 (includes_improdutivo_imp lower h)
    rw [if_neg h1, if_neg h2]
    decide

/-! ## Facts about the handlers -/

theorem orElse_some_nil (v : JsString) : orElse (some v) [] = v := by
  cases v <;> rfl

theorem truthy_some (v : JsString) : truthy (some v) = true ↔ v ≠ [] := by
  cases v <;> simp [truthy]

theorem loadingEvents_append (l₁ l₂ : List (Nat × Effect)) :
    loadingEvents (l₁ ++ l₂) = loadingEvents l₁ ++ loadingEvents l₂ := by
  simp [loadingEvents, List.filterMap_append]

theorem enforceMinDelay_dom (env : Env) (start : Nat) (r : Run) :
    (enforceMinDelay env start r).dom = r.dom := by
  by_cases hlt : r.now - start < MIN_DELAY <;>
    simp [enforceMinDelay, hlt, wait, Run.call, Run.await]

theorem enforceMinDelay_now (env : Env) (start : Nat) (r : Run) (h : start ≤ r.now) :
    start + MIN_DELAY ≤ (enforceMinDelay env start r).now := by
  by_cases hlt : r.now - start < MIN_DELAY
  · simp only [enforceMinDelay, hlt, wait, Run.call, Run.await, if_true]
    omega
  · simp only [enforceMinDelay, hlt, if_false]
    omega

theorem enforceMinDelay_loading (env : Env) (start : Nat) (r : Run) :
    loadingEvents (enforceMinDelay env start r).log = loadingEvents r.log := by
  by_cases hlt : r.now - start < MIN_DELAY <;>
    simp [enforceMinDelay, hlt, wait, Run.call, Run.await, loadingEvents_append, loadingEvents]

theorem tryBlock_rejected (env : Env) (start : Nat) (req : Request) (generic : JsString)
    (report : JsString → Run → Run) (r : Run) (h : env.fetch req = .rejected) :
    tryBlock env start req generic report r
      = catchBlock env start report (afterFetch env req r) := by
  simp [tryBlock, h, afterFetch]

theorem tryBlock_not_ok (env : Env) (start : Nat) (req : Request) (generic : JsString)
    (report : JsString → Run → Run) (r : Run) (body : JsonBody)
    (h : env.fetch req = .response false body) :
    tryBlock env start req generic report r
      = report (errorMessage generic body)
          (enforceMinDelay env start ((afterFetch env req r).await env.jsonTime)) := by
  simp [tryBlock, h, afterFetch]

theorem tryBlock_unparsable (env : Env) (start : Nat) (req : Request) (generic : JsString)
    (report : JsString → Run → Run) (r : Run)
    (h : env.fetch req = .response true .unparsable) :
    tryBlock env start req generic report r
      = catchBlock env start report ((afterFetch env req r).await env.jsonTime) := by
  simp [tryBlock, h, afterFetch]

theorem tryBlock_null (env : Env) (start : Nat) (req : Request) (generic : JsString)
    (report : JsString → Run → Run) (r : Run)
    (h : env.fetch req = .response true .null) :
    tryBlock env start req generic report r
      = catchBlock env start report
          (enforceMinDelay env start ((afterFetch env req r).await env.jsonTime)) := by
  simp [tryBlock, h, afterFetch]

theorem tryBlock_object (env : Env) (start : Nat) (req : Request) (generic : JsString)
    (report : JsString → Run → Run) (r : Run) (data : JsonObject)
    (h : env.fetch req = .response true (.object data)) :
    tryBlock env start req generic report r
      = (enforceMinDelay env start ((afterFetch env req r).await env.jsonTime)).call
          (.showResult data) (showResult data) := by
  simp [tryBlock, h, afterFetch]

theorem afterFetch_now (env : Env) (req : Request) (r : Run) :
    (afterFetch env req r).now = r.now + env.fetchTime := rfl

theorem afterFetch_dom (env : Env) (req : Request) (r : Run) :
    (afterFetch env req r).dom = r.dom := rfl

theorem afterFetch_loading (env : Env) (req : Request) (r : Run) :
    loadingEvents (afterFetch env req r).log = loadingEvents r.log := by
  simp [afterFetch, Run.call, Run.await, loadingEvents_append, loadingEvents]

theorem keepsOverlay_refl (r : Run) : KeepsOverlay r r :=
  ⟨rfl, [], by simp, by simp⟩

theorem keepsOverlay_trans (a b c : Run) (hab : KeepsOverlay a b) (hbc : KeepsOverlay b c) :
    KeepsOverlay a c := by
  obtain ⟨h1, e1, ht1, he1⟩ := hab
  obtain ⟨h2, e2, ht2, he2⟩ := hbc
  refine ⟨h2.trans h1, e1 ++ e2, by rw [ht2, ht1, List.append_assoc], ?_⟩
  intro entry hmem
  rcases List.mem_append.1 hmem with h | h
  · exact he1 entry h
  · exact (he2 entry h).trans h1

theorem keepsOverlay_call (e : Effect) (f : Dom → Dom) (r : Run)
    (hf : (f r.dom).loadingOverlay = r.dom.loadingOverlay) : KeepsOverlay r (r.call e f) := by
  refine ⟨hf, [(r.now, f r.dom)], rfl, ?_⟩
  intro entry hmem
  rw [List.mem_singleton] at hmem
  rw [hmem]
  exact hf

theorem keepsOverlay_await (ms : Nat) (r : Run) : KeepsOverlay r (r.await ms) :=
  ⟨rfl, [], by simp [Run.await], by simp⟩

theorem keepsOverlay_enforceMinDelay (env : Env) (start : Nat) (r : Run) :
    KeepsOverlay r (enforceMinDelay env start r) := by
  by_cases hlt : r.now - start < MIN_DELAY
  · simp only [enforceMinDelay, hlt, if_true, wait]
    exact keepsOverlay_trans _ _ _ (keepsOverlay_call _ id r rfl) (keepsOverlay_await _ _)
  · simp only [enforceMinDelay, hlt, if_false]
    exact keepsOverlay_refl r

theorem isReport_text : IsReport reportText showTextError where
  now := fun _ _ => rfl
  dom := fun _ _ => rfl
  loading := fun msg r => by simp [reportText, Run.call, loadingEvents_append, loadingEvents]
  overlay := fun msg r => keepsOverlay_call _ _ r rfl

theorem isReport_file : IsReport reportFile showFileError where
  now := fun _ _ => rfl
  dom := fun _ _ => rfl
  loading := fun msg r => by simp [reportFile, Run.call, loadingEvents_append, loadingEvents]
  overlay := fun msg r => keepsOverlay_call _ _ r rfl

theorem keepsOverlay_catchBlock (env : Env) (start : Nat) (report : JsString → Run → Run)
    (f : JsString → Dom → Dom) (hr : IsReport report f) (r : Run) :
    KeepsOverlay r (catchBlock env start report r) := by
  unfold catchBlock
  exact keepsOverlay_trans _ _ _ (keepsOverlay_call _ id r rfl)
    (keepsOverlay_trans _ _ _ (keepsOverlay_enforceMinDelay env start _) (hr.overlay _ _))

theorem keepsOverlay_afterFetch (env : Env) (req : Request) (r : Run) :
    KeepsOverlay r (afterFetch env req r) :=
  keepsOverlay_trans _ _ _ (keepsOverlay_call _ id r rfl) (keepsOverlay_await _ _)

theorem catchBlock_now (env : Env) (start : Nat) (report : JsString → Run → Run)
    (f : JsString → Dom → Dom) (hr : IsReport report f) (r : Run) (h : start ≤ r.now) :
    start + MIN_DELAY ≤ (catchBlock env start report r).now := by
  unfold catchBlock
  simp only [hr.now]
  exact enforceMinDelay_now env start _ h

theorem catchBlock_dom (env : Env) (start : Nat) (report : JsString → Run → Run)
    (f : JsString → Dom → Dom) (hr : IsReport report f) (r : Run) :
    (catchBlock env start report r).dom = f MSG_CONNECTION r.dom := by
  unfold catchBlock
  simp only [hr.dom, enforceMinDelay_dom]
  rfl

theorem catchBlock_loading (env : Env) (start : Nat) (report : JsString → Run → Run)
    (f : JsString → Dom → Dom) (hr : IsReport report f) (r : Run) :
    loadingEvents (catchBlock env start report r).log = loadingEvents r.log := by
  unfold catchBlock
  simp only [hr.loading, enforceMinDelay_loading]
  simp [Run.call, loadingEvents_append, loadingEvents]

theorem tryBlock_now (env : Env) (start : Nat) (req : Request) (generic : JsString)
    (report : JsString → Run → Run) (f : JsString → Dom → Dom) (hr : IsReport report f)
    (r : Run) (h : start ≤ r.now) :
    start + MIN_DELAY ≤ (tryBlock env start req generic report r).now := by
  have h1 : start ≤ (afterFetch env req r).now := by
    rw [afterFetch_now]
    omega
  have h2 : start ≤ ((afterFetch env req r).await env.jsonTime).now := by
    simp only [Run.await, afterFetch_now]
    omega
  cases hf : env.fetch req with
  | rejected =>
    rw [tryBlock_rejected _ _ _ _ _ _ hf]
    exact catchBlock_now env start report f hr _ h1
  | response ok body =>
    cases ok with
    | false =>
      rw [tryBlock_not_ok _ _ _ _ _ _ _ hf, hr.now]
      exact enforceMinDelay_now env start _ h2
    | true =>
      cases body with
      | unparsable =>
        rw [tryBlock_unparsable _ _ _ _ _ _ hf]
        exact catchBlock_now env start report f hr _ h2
      | null =>
        rw [tryBlock_null _ _ _ _ _ _ hf]
        refine catchBlock_now env start report f hr _ ?_
        have := enforceMinDelay_now env start _ h2
        omega
      | object data =>
        rw [tryBlock_object _ _ _ _ _ _ _ hf]
        exact enforceMinDelay_now env start _ h2

theorem tryBlock_loading (env : Env) (start : Nat) (req : Request) (generic : JsString)
    (report : JsString → Run → Run) (f : JsString → Dom → Dom) (hr : IsReport report f)
    (r : Run) :
    loadingEvents (tryBlock env start req generic report r).log = loadingEvents r.log := by
  have h2 : loadingEvents ((afterFetch env req r).await env.jsonTime).log
      = loadingEvents r.log := afterFetch_loading env req r
  cases hf : env.fetch req with
  | rejected =>
    rw [tryBlock_rejected _ _ _ _ _ _ hf, catchBlock_loading env start report f hr,
      afterFetch_loading]
  | response ok body =>
    cases ok with
    | false =>
      rw [tryBlock_not_ok _ _ _ _ _ _ _ hf, hr.loading, enforceMinDelay_loading, h2]
    | true =>
      cases body with
      | unparsable =>
        rw [tryBlock_unparsable _ _ _ _ _ _ hf, catchBlock_loading env start report f hr, h2]
      | null =>
        rw [tryBlock_null _ _ _ _ _ _ hf, catchBlock_loading env start report f hr,
          enforceMinDelay_loading, h2]
      | object data =>
        rw [tryBlock_object _ _ _ _ _ _ _ hf]
        simp only [Run.call, loadingEvents_append, enforceMinDelay_loading, h2]
        simp [loadingEvents]

theorem tryBlock_dom (env : Env) (start : Nat) (req : Request) (generic : JsString)
    (report : JsString → Run → Run) (f : JsString → Dom → Dom) (hr : IsReport report f)
    (r : Run) :
    (tryBlock env start req generic report r).dom =
      match env.fetch req with
      | .rejected => f MSG_CONNECTION r.dom
      | .response false body => f (errorMessage generic body) r.dom
      | .response true (.object data) => showResult data r.dom
      | .response true _ => f MSG_CONNECTION r.dom := by
  have h2 : ((afterFetch env req r).await env.jsonTime).dom = r.dom := rfl
  cases hf : env.fetch req with
  | rejected =>
    rw [tryBlock_rejected _ _ _ _ _ _ hf, catchBlock_dom env start report f hr, afterFetch_dom]
  | response ok body =>
    cases ok with
    | false =>
      rw [tryBlock_not_ok _ _ _ _ _ _ _ hf, hr.dom, enforceMinDelay_dom, h2]
    | true =>
      cases body with
      | unparsable =>
        rw [tryBlock_unparsable _ _ _ _ _ _ hf, catchBlock_dom env start report f hr, h2]
      | null =>
        rw [tryBlock_null _ _ _ _ _ _ hf, catchBlock_dom env start report f hr,
          enforceMinDelay_dom, h2]
      | object data =>
        rw [tryBlock_object _ _ _ _ _ _ _ hf]
        simp only [Run.call, enforceMinDelay_dom, h2]

theorem keepsOverlay_tryBlock (env : Env) (start : Nat) (req : Request) (generic : JsString)
    (report : JsString → Run → Run) (f : JsString → Dom → Dom) (hr : IsReport report f)
    (r : Run) :
    KeepsOverlay r (tryBlock env start req generic report r) := by
  have h1 : KeepsOverlay r (afterFetch env req r) := keepsOverlay_afterFetch env req r
  have h2 : KeepsOverlay r ((afterFetch env req r).await env.jsonTime) :=
    keepsOverlay_trans _ _ _ h1 (keepsOverlay_await _ _)
  have h3 : KeepsOverlay r (enforceMinDelay env start ((afterFetch env req r).await env.jsonTime)) :=
    keepsOverlay_trans _ _ _ h2 (keepsOverlay_enforceMinDelay env start _)
  cases hf : env.fetch req with
  | rejected =>
    rw [tryBlock_rejected _ _ _ _ _ _ hf]
    exact keepsOverlay_trans _ _ _ h1 (keepsOverlay_catchBlock env start report f hr _)
  | response ok body =>
    cases ok with
    | false =>
      rw [tryBlock_not_ok _ _ _ _ _ _ _ hf]
      exact keepsOverlay_trans _ _ _ h3 (hr.overlay _ _)
    | true =>
      cases body with
      | unparsable =>
        rw [tryBlock_unparsable _ _ _ _ _ _ hf]
        exact keepsOverlay_trans _ _ _ h2 (keepsOverlay_catchBlock env start report f hr _)
      | null =>
        rw [tryBlock_null _ _ _ _ _ _ hf]
        exact keepsOverlay_trans _ _ _ h3 (keepsOverlay_catchBlock env start report f hr _)
      | object data =>
        rw [tryBlock_object _ _ _ _ _ _ _ hf]
        exact keepsOverlay_trans _ _ _ h3 (keepsOverlay_call _ _ _ rfl)

theorem analyzeTextClick_valid (env : Env) (r : Run) (h : trim r.dom.emailText ≠ []) :
    analyzeTextClick env r
      = (tryBlock env r.now (textRequest r) MSG_TEXT_FAILED reportText (enterTry env r)).call
          (.showLoading false) (showLoading false) := by
  have ht : truthy (some (trim r.dom.emailText)) = true := (truthy_some _).2 h
  simp [analyzeTextClick, enterTry, textRequest, reportText, reportFile, Run.call, Run.tick,
    showTextError, showFileError, orElse_some_nil, ht]

theorem analyzeFileClick_valid (env : Env) (r : Run) (file : File) (rest : List File)
    (h : r.dom.emailFile = some (file :: rest)) :
    analyzeFileClick env r
      = (tryBlock env r.now (fileRequest file) MSG_FILE_FAILED reportFile (enterTry env r)).call
          (.showLoading false) (showLoading false) := by
  simp [analyzeFileClick, enterTry, fileRequest, reportText, reportFile, Run.call, Run.tick,
    showTextError, showFileError, h]

theorem enterTry_now (env : Env) (r : Run) : (enterTry env r).now = r.now + env.showLag := rfl

theorem enterTry_loading (env : Env) (r : Run) :
    loadingEvents (enterTry env r).log = loadingEvents r.log ++ [(r.now + env.showLag, true)] := by
  simp [enterTry, reportText, reportFile, Run.call, Run.tick, loadingEvents,
    List.filterMap_append]

/-- Both handlers, once past validation: `showLoading` is called exactly twice, to
show after `start` was read and to hide at the end, at least `MIN_DELAY` after
`start`. -/
theorem submission_loading (env : Env) (r : Run) (req : Request) (generic : JsString)
    (report : JsString → Run → Run) (f : JsString → Dom → Dom) (hr : IsReport report f) :
    loadingEvents ((tryBlock env r.now req generic report (enterTry env r)).call
        (.showLoading false) (showLoading false)).log
      = loadingEvents r.log ++
          [(r.now + env.showLag, true),
           ((tryBlock env r.now req generic report (enterTry env r)).now, false)]
    ∧ r.now + 350 ≤ (tryBlock env r.now req generic report (enterTry env r)).now := by
  constructor
  · simp only [Run.call, loadingEvents_append, tryBlock_loading env r.now req generic report f hr,
      enterTry_loading]
    simp [loadingEvents]
  · exact tryBlock_now env r.now req generic report f hr (enterTry env r)
      (by rw [enterTry_now]; omega)

theorem indicatorShown_congr (d₁ d₂ : Dom) (h : d₁.loadingOverlay = d₂.loadingOverlay) :
    indicatorShown d₁ = indicatorShown d₂ := by
  unfold indicatorShown
  rw [h]

theorem indicatorShown_showLoading_true (d : Dom) (ho : d.loadingOverlay.isSome = true) :
    indicatorShown (showLoading true d) = true := by
  obtain ⟨cl, hcl⟩ := Option.isSome_iff_exists.1 ho
  simp [indicatorShown, showLoading, hcl, classList.toggle, visible, classList.mem_remove]

theorem indicatorShown_showLoading_false (d : Dom) :
    indicatorShown (showLoading false d) = false := by
  cases hcl : d.loadingOverlay with
  | none => simp [indicatorShown, showLoading, hcl]
  | some cl =>
    simp [indicatorShown, showLoading, hcl, classList.toggle, visible, classList.mem_add]

theorem indicatorTimeline_append (t₁ t₂ : List (Nat × Dom)) :
    indicatorTimeline (t₁ ++ t₂) = indicatorTimeline t₁ ++ indicatorTimeline t₂ := by
  simp [indicatorTimeline]

theorem enterTry_trace (env : Env) (r : Run) :
    (enterTry env r).trace
      = r.trace ++ [(r.now, showTextError [] r.dom),
          (r.now, showFileError [] (showTextError [] r.dom)),
          (r.now + env.showLag, showLoading true (showFileError [] (showTextError [] r.dom)))] := by
  simp [enterTry, reportText, reportFile, Run.call, Run.tick]

theorem enterTry_dom (env : Env) (r : Run) :
    (enterTry env r).dom = showLoading true (showFileError [] (showTextError [] r.dom)) := rfl

/-- Both handlers, once past validation, on a page with the overlay: the indicator
goes on display with `showLoading(true)`, stays on display after every call of the
`try` block, and goes off display with the closing `showLoading(false)`. -/
theorem submission_indicator (env : Env) (r : Run) (req : Request) (generic : JsString)
    (report : JsString → Run → Run) (f : JsString → Dom → Dom) (hr : IsReport report f)
    (ho : r.dom.loadingOverlay.isSome = true) :
    ∃ during,
      indicatorTimeline ((tryBlock env r.now req generic report (enterTry env r)).call
          (.showLoading false) (showLoading false)).trace
        = indicatorTimeline r.trace
          ++ [(r.now, indicatorShown r.dom), (r.now, indicatorShown r.dom),
              (r.now + env.showLag, true)]
          ++ during
          ++ [((tryBlock env r.now req generic report (enterTry env r)).now, false)]
      ∧ ∀ entry ∈ during, entry.2 = true := by
  obtain ⟨_, ext, htrace, hext⟩ :=
    keepsOverlay_tryBlock env r.now req generic report f hr (enterTry env r)
  have hshown : indicatorShown (enterTry env r).dom = true :=
    indicatorShown_showLoading_true _ ho
  refine ⟨indicatorTimeline ext, ?_, ?_⟩
  · simp only [Run.call, htrace, enterTry_trace, indicatorTimeline_append]
    have e1 : indicatorShown (showTextError [] r.dom) = indicatorShown r.dom :=
      indicatorShown_congr _ _ rfl
    have e2 : indicatorShown (showFileError [] (showTextError [] r.dom)) = indicatorShown r.dom :=
      indicatorShown_congr _ _ rfl
    have e3 : indicatorShown (showLoading true (showFileError [] (showTextError [] r.dom)))
        = true := hshown
    simp [indicatorTimeline, e1, e2, e3, indicatorShown_showLoading_false]
  · intro entry hmem
    simp only [indicatorTimeline, List.mem_map] at hmem
    obtain ⟨page, hpage, rfl⟩ := hmem
    simp only
    rw [indicatorShown_congr _ _ (hext page hpage)]
    exact hshown

theorem showError_textContent (msg : JsString) (b : TextElement) :
    (showError msg b).textContent = msg :=
  orElse_some_nil msg

theorem showError_visible (msg : JsString) (b : TextElement) :
    visible (showError msg b).classList ↔ msg ≠ [] := by
  cases msg with
  | nil => simp [visible, showError, truthy, classList.toggle, classList.mem_add]
  | cons c m => simp [visible, showError, truthy, classList.toggle, classList.mem_remove]

theorem errorMessage_ne_nil (generic : JsString) (body : JsonBody) (hg : generic ≠ []) :
    errorMessage generic body ≠ [] := by
  unfold errorMessage
  cases body with
  | unparsable => exact hg
  | null => exact hg
  | object err =>
    cases hd : err.detail with
    | none => simpa [truthy, hd] using hg
    | some dt =>
      cases dt with
      | nil => simpa [truthy, hd] using hg
      | cons c m => simp [truthy, hd]

theorem showLoading_textError (shown : Bool) (d : Dom) :
    (showLoading shown d).textError = d.textError := by
  unfold showLoading
  cases d.loadingOverlay <;> rfl

theorem showLoading_fileError (shown : Bool) (d : Dom) :
    (showLoading shown d).fileError = d.fileError := by
  unfold showLoading
  cases d.loadingOverlay <;> rfl

theorem showLoading_false_overlay (d : Dom) :
    (showLoading false d).loadingOverlay
      = d.loadingOverlay.map (fun cl => classList.add cl ["hidden"]) := by
  unfold showLoading
  cases h : d.loadingOverlay <;> simp [h, classList.toggle]

theorem enterTry_textError (env : Env) (r : Run) :
    (enterTry env r).dom.textError = showError [] r.dom.textError := by
  simp [enterTry, reportText, reportFile, Run.call, Run.tick, showLoading_textError,
    showTextError, showFileError]

theorem enterTry_fileError (env : Env) (r : Run) :
    (enterTry env r).dom.fileError = showError [] r.dom.fileError := by
  simp [enterTry, reportText, reportFile, Run.call, Run.tick, showLoading_fileError,
    showTextError, showFileError]

theorem enterTry_overlay_isSome (env : Env) (r : Run) :
    (enterTry env r).dom.loadingOverlay.isSome = r.dom.loadingOverlay.isSome := by
  simp only [enterTry, reportText, reportFile, Run.call, Run.tick, showTextError, showFileError,
    showLoading]
  cases r.dom.loadingOverlay <;> rfl

theorem tryBlock_overlay (env : Env) (start : Nat) (req : Request) (generic : JsString)
    (report : JsString → Run → Run) (f : JsString → Dom → Dom) (hr : IsReport report f)
    (hf : ∀ msg d, (f msg d).loadingOverlay = d.loadingOverlay) (r : Run) :
    (tryBlock env start req generic report r).dom.loadingOverlay = r.dom.loadingOverlay := by
  rw [tryBlock_dom env start req generic report f hr]
  cases env.fetch req with
  | rejected => exact hf _ _
  | response ok body =>
    cases ok with
    | false => exact hf _ _
    | true =>
      cases body with
      | unparsable => exact hf _ _
      | null => exact hf _ _
      | object data => rfl

/-- Both handlers, once past validation: the last call is `showLoading(false)`, and
the overlay, which the handler neither creates nor deletes, ends hidden. -/
theorem submission_hides_loading (env : Env) (r : Run) (req : Request) (generic : JsString)
    (report : JsString → Run → Run) (f : JsString → Dom → Dom) (hr : IsReport report f)
    (hf : ∀ msg d, (f msg d).loadingOverlay = d.loadingOverlay) (out : Run)
    (hout : out = (tryBlock env r.now req generic report (enterTry env r)).call
        (.showLoading false) (showLoading false)) :
    out.log.getLast? = some (out.now, .showLoading false)
    ∧ out.dom.loadingOverlay.isSome = r.dom.loadingOverlay.isSome
    ∧ ∀ cl, out.dom.loadingOverlay = some cl → ¬ visible cl := by
  subst hout
  have hov : ((tryBlock env r.now req generic report (enterTry env r)).call
        (.showLoading false) (showLoading false)).dom.loadingOverlay
      = (enterTry env r).dom.loadingOverlay.map (fun cl => classList.add cl ["hidden"]) := by
    simp only [Run.call, showLoading_false_overlay, tryBlock_overlay env r.now req generic report f hr hf]
  refine ⟨?_, ?_, ?_⟩
  · simp [Run.call]
  · rw [hov, ← enterTry_overlay_isSome]
    cases (enterTry env r).dom.loadingOverlay <;> rfl
  · intro cl hcl
    rw [hov] at hcl
    cases ho : (enterTry env r).dom.loadingOverlay with
    | none => simp [ho] at hcl
    | some cl0 =>
      simp only [ho, Option.map_some', Option.some.injEq] at hcl
      subst hcl
      simp [visible, classList.mem_add]

/-- Both banners after a text submission that passed validation, by the answer of
the server. -/
theorem analyzeTextClick_banners (env : Env) (r : Run) (h : trim r.dom.emailText ≠ []) :
    (analyzeTextClick env r).dom.fileError = showError [] r.dom.fileError
    ∧ (analyzeTextClick env r).dom.textError =
        match env.fetch (textRequest r) with
        | .rejected => showError MSG_CONNECTION (showError [] r.dom.textError)
        | .response false body =>
            showError (errorMessage MSG_TEXT_FAILED body) (showError [] r.dom.textError)
        | .response true (.object _) => showError [] r.dom.textError
        | .response true _ => showError MSG_CONNECTION (showError [] r.dom.textError) := by
  rw [analyzeTextClick_valid env r h]
  simp only [Run.call, showLoading_textError, showLoading_fileError,
    tryBlock_dom env r.now _ _ _ _ isReport_text]
  cases env.fetch (textRequest r) with
  | rejected => exact ⟨enterTry_fileError env r, by simp [showTextError, enterTry_textError]⟩
  | response ok body =>
    cases ok with
    | false => exact ⟨enterTry_fileError env r, by simp [showTextError, enterTry_textError]⟩
    | true =>
      cases body with
      | unparsable => exact ⟨enterTry_fileError env r, by simp [showTextError, enterTry_textError]⟩
      | null => exact ⟨enterTry_fileError env r, by simp [showTextError, enterTry_textError]⟩
      | object data => exact ⟨enterTry_fileError env r, enterTry_textError env r⟩

/-- Both banners after a file submission that passed validation, by the answer of
the server. -/
theorem analyzeFileClick_banners (env : Env) (r : Run) (file : File) (rest : List File)
    (h : r.dom.emailFile = some (file :: rest)) :
    (analyzeFileClick env r).dom.textError = showError [] r.dom.textError
    ∧ (analyzeFileClick env r).dom.fileError =
        match env.fetch (fileRequest file) with
        | .rejected => showError MSG_CONNECTION (showError [] r.dom.fileError)
        | .response false body =>
            showError (errorMessage MSG_FILE_FAILED body) (showError [] r.dom.fileError)
        | .response true (.object _) => showError [] r.dom.fileError
        | .response true _ => showError MSG_CONNECTION (showError [] r.dom.fileError) := by
  rw [analyzeFileClick_valid env r file rest h]
  simp only [Run.call, showLoading_textError, showLoading_fileError,
    tryBlock_dom env r.now _ _ _ _ isReport_file]
  cases env.fetch (fileRequest file) with
  | rejected => exact ⟨enterTry_textError env r, by simp [showFileError, enterTry_fileError]⟩
  | response ok body =>
    cases ok with
    | false => exact ⟨enterTry_textError env r, by simp [showFileError, enterTry_fileError]⟩
    | true =>
      cases body with
      | unparsable => exact ⟨enterTry_textError env r, by simp [showFileError, enterTry_fileError]⟩
      | null => exact ⟨enterTry_textError env r, by simp [showFileError, enterTry_fileError]⟩
      | object data => exact ⟨enterTry_textError env r, enterTry_fileError env r⟩

/-- The banner after `showError (errorMessage generic body)`: visible, with the
detail when the body carries a non-empty one and the generic message otherwise. -/
theorem showError_errorMessage (generic : JsString) (body : JsonBody) (b : TextElement)
    (hg : generic ≠ []) :
    visible (showError (errorMessage generic body) b).classList
    ∧ (∀ o dt, body = .object o → o.detail = some dt → dt ≠ [] →
        (showError (errorMessage generic body) b).textContent = dt)
    ∧ ((body = .unparsable ∨ body = .null ∨
          ∃ o, body = .object o ∧ (o.detail = none ∨ o.detail = some [])) →
        (showError (errorMessage generic body) b).textContent = generic) := by
  refine ⟨(showError_visible _ _).2 (errorMessage_ne_nil generic body hg), ?_, ?_⟩
  · intro o dt hb hd hne
    subst hb
    rw [showError_textContent]
    have ht : truthy (some dt) = true := (truthy_some dt).2 hne
    simp [errorMessage, hd, ht]
  · intro hb
    rw [showError_textContent]
    rcases hb with hb | hb | ⟨o, hb, hd | hd⟩ <;> subst hb
    · rfl
    · rfl
    · simp [errorMessage, hd, truthy]
    · simp [errorMessage, hd, truthy]

/-! ## Facts about the mode switch -/

theorem setInputMode_of_absent (mode : JsString) (d : Dom) (h : ¬ modeSwitchPresent d) :
    setInputMode mode d = d := by
  unfold setInputMode
  unfold modeSwitchPresent at h
  cases h1 : d.segmentedThumb <;> cases h2 : d.panelText <;> cases h3 : d.panelFile <;>
    cases h4 : d.modeTextBtn <;> cases h5 : d.modeFileBtn <;> simp_all

theorem setInputMode_present (mode : JsString) (d : Dom) (h : modeSwitchPresent d) :
    modeSwitchPresent (setInputMode mode d) := by
  unfold modeSwitchPresent at h ⊢
  unfold setInputMode
  cases h1 : d.segmentedThumb <;> cases h2 : d.panelText <;> cases h3 : d.panelFile <;>
    cases h4 : d.modeTextBtn <;> cases h5 : d.modeFileBtn <;> simp_all
  split_ifs <;> simp

theorem sameClasses_refl (a : Option ClassList) : sameClasses a a := by
  cases a <;> simp [sameClasses]

theorem sameModeView_refl (d : Dom) : sameModeView d d :=
  ⟨sameClasses_refl _, sameClasses_refl _, sameClasses_refl _, sameClasses_refl _,
    sameClasses_refl _, rfl⟩

theorem setInputMode_text (d : Dom) (thumb pText pFile bText bFile : ClassList)
    (h1 : d.segmentedThumb = some thumb) (h2 : d.panelText = some pText)
    (h3 : d.panelFile = some pFile) (h4 : d.modeTextBtn = some bText)
    (h5 : d.modeFileBtn = some bFile) :
    setInputMode "text".toList d =
      { d with
        segmentedThumb := some (classList.remove thumb ["segmented-thumb-right"])
        panelText := some (classList.remove pText ["hidden"])
        panelFile := some (classList.add pFile ["hidden"])
        modeTextBtn := some (classList.remove
          (classList.add bText ["text-slate-900", "dark:text-slate-100"])
          ["text-slate-500", "dark:text-slate-400"])
        modeFileBtn := some (classList.remove
          (classList.add bFile ["text-slate-500", "dark:text-slate-400"])
          ["text-slate-900", "dark:text-slate-100"]) } := by
  unfold setInputMode
  rw [h1, h2, h3, h4, h5]
  rfl

theorem setInputMode_file (d : Dom) (thumb pText pFile bText bFile : ClassList)
    (h1 : d.segmentedThumb = some thumb) (h2 : d.panelText = some pText)
    (h3 : d.panelFile = some pFile) (h4 : d.modeTextBtn = some bText)
    (h5 : d.modeFileBtn = some bFile) :
    setInputMode "file".toList d =
      { d with
        segmentedThumb := some (classList.add thumb ["segmented-thumb-right"])
        panelFile := some (classList.remove pFile ["hidden"])
        panelText := some (classList.add pText ["hidden"])
        modeFileBtn := some (classList.remove
          (classList.add bFile ["text-slate-900", "dark:text-slate-100"])
          ["text-slate-500", "dark:text-slate-400"])
        modeTextBtn := some (classList.remove
          (classList.add bText ["text-slate-500", "dark:text-slate-400"])
          ["text-slate-900", "dark:text-slate-100"]) } := by
  unfold setInputMode
  rw [h1, h2, h3, h4, h5]
  rfl

theorem modeSwitchPresent_iff (d : Dom) :
    modeSwitchPresent d ↔ ∃ thumb pText pFile bText bFile,
      d.segmentedThumb = some thumb ∧ d.panelText = some pText ∧ d.panelFile = some pFile
      ∧ d.modeTextBtn = some bText ∧ d.modeFileBtn = some bFile := by
  unfold modeSwitchPresent
  simp only [Option.isSome_iff_exists]
  constructor
  · rintro ⟨⟨a, ha⟩, ⟨b, hb⟩, ⟨c, hc⟩, ⟨e, he⟩, ⟨f, hf⟩⟩
    exact ⟨a, b, c, e, f, ha, hb, hc, he, hf⟩
  · rintro ⟨a, b, c, e, f, ha, hb, hc, he, hf⟩
    exact ⟨⟨a, ha⟩, ⟨b, hb⟩, ⟨c, hc⟩, ⟨e, he⟩, ⟨f, hf⟩⟩

theorem setInputMode_showsMode (m : InputMode) (d : Dom) (h : modeSwitchPresent d) :
    ShowsMode m (setInputMode m.key d) := by
  obtain ⟨thumb, pText, pFile, bText, bFile, h1, h2, h3, h4, h5⟩ := (modeSwitchPresent_iff d).1 h
  cases m with
  | text =>
    rw [InputMode.key, setInputMode_text d _ _ _ _ _ h1 h2 h3 h4 h5]
    refine ⟨_, _, _, _, _, rfl, rfl, rfl, rfl, rfl, ?_⟩
    simp [visible, highlighted, dimmed, classList.mem_add, classList.mem_remove]
  | file =>
    rw [InputMode.key, setInputMode_file d _ _ _ _ _ h1 h2 h3 h4 h5]
    refine ⟨_, _, _, _, _, rfl, rfl, rfl, rfl, rfl, ?_⟩
    simp [visible, highlighted, dimmed, classList.mem_add, classList.mem_remove]

theorem selectModes_present (page : Dom) (modes : List InputMode) (h : modeSwitchPresent page) :
    modeSwitchPresent (selectModes page modes) := by
  unfold selectModes initPage
  have h0 := setInputMode_present "text".toList page h
  generalize setInputMode "text".toList page = d at h0
  induction modes generalizing d with
  | nil => exact h0
  | cons m ms ih => exact ih _ (setInputMode_present _ _ h0)

theorem selectModes_concat (page : Dom) (modes : List InputMode) (m : InputMode) :
    selectModes page (modes ++ [m]) = setInputMode m.key (selectModes page modes) := by
  simp [selectModes, List.foldl_append]

/-! ## Claims -/

/-- C1 (evaluation of the code): for every page, `showResult` gives the categories
`Produtivo` and `produtivo - urgente` the emerald (positive) classes and `Spam`
the slate (default) classes, and it gives `Improdutivo` the emerald classes too,
not the sky (informational) ones. -/
theorem showResult_badge_of_sample_categories (d : Dom) :
    (showResult ⟨some "Produtivo".toList, none, none, none, none⟩ d).categoryBadge.classList
        = classList.add (classList.remove d.categoryBadge.classList tierClasses)
            ["bg-emerald-500/10", "text-emerald-700"]
    ∧ (showResult ⟨some "produtivo - urgente".toList, none, none, none, none⟩ d).categoryBadge.classList
        = classList.add (classList.remove d.categoryBadge.classList tierClasses)
            ["bg-emerald-500/10", "text-emerald-700"]
    ∧ (showResult ⟨some "Spam".toList, none, none, none, none⟩ d).categoryBadge.classList
        = classList.add (classList.remove d.categoryBadge.classList tierClasses)
            ["bg-slate-800", "text-slate-100"]
    ∧ (showResult ⟨some "Improdutivo".toList, none, none, none, none⟩ d).categoryBadge.classList
        = classList.add (classList.remove d.categoryBadge.classList tierClasses)
            ["bg-emerald-500/10", "text-emerald-700"]
    ∧ "bg-sky-500/10" ∉
        (showResult ⟨some "Improdutivo".toList, none, none, none, none⟩ d).categoryBadge.classList := by
  refine ⟨rfl, rfl, rfl, rfl, ?_⟩
  show "bg-sky-500/10" ∉ classList.add (classList.remove d.categoryBadge.classList tierClasses)
            ["bg-emerald-500/10", "text-emerald-700"]
  rw [classList.mem_add, classList.mem_remove]
  simp [tierClasses]

/-- C2: when the text area is empty or holds only white space, the text handler
makes exactly three calls (the two banner resets and the validation message), so it
sends no request and never calls `showLoading`; it takes no time, and it leaves the
text banner visible with the fixed validation message. -/
theorem analyzeTextClick_blank (env : Env) (r : Run)
    (h : ∀ c ∈ r.dom.emailText, isWhiteSpace c = true) :
    (analyzeTextClick env r).log
        = r.log ++ [(r.now, .showTextError []), (r.now, .showFileError []),
            (r.now, .showTextError MSG_EMPTY_TEXT)]
    ∧ requests (analyzeTextClick env r).log = requests r.log
    ∧ loadingEvents (analyzeTextClick env r).log = loadingEvents r.log
    ∧ (analyzeTextClick env r).now = r.now
    ∧ (analyzeTextClick env r).dom.textError.textContent = MSG_EMPTY_TEXT
    ∧ visible (analyzeTextClick env r).dom.textError.classList := by
  have ht : trim r.dom.emailText = [] := trim_eq_nil_of_blank _ h
  have hrun : analyzeTextClick env r = reportText MSG_EMPTY_TEXT (reportFile [] (reportText [] r)) := by
    simp [analyzeTextClick, reportText, reportFile, Run.call, showTextError, showFileError,
      orElse_some_nil, ht, truthy]
  rw [hrun]
  refine ⟨?_, ?_, ?_, rfl, ?_, ?_⟩
  · simp [reportText, reportFile, Run.call]
  · simp [reportText, reportFile, Run.call, requests, List.filterMap_append]
  · simp [reportText, reportFile, Run.call, loadingEvents, List.filterMap_append]
  · simp [reportText, reportFile, Run.call, showTextError, showFileError, showError,
      orElse_some_nil]
  · simp only [visible, reportText, reportFile, Run.call, showTextError, showFileError, showError,
      classList.toggle]
    have hm : truthy (some MSG_EMPTY_TEXT) = true := by decide
    simp [hm, classList.mem_remove]

/-- C2, at a text area that holds a space, a tab, a line feed and a space. -/
theorem analyzeTextClick_blank_witness :
    (∀ c ∈ blankRun.dom.emailText, isWhiteSpace c = true)
    ∧ (analyzeTextClick fastEnv blankRun).log
        = [(1000, .showTextError []), (1000, .showFileError []),
            (1000, .showTextError MSG_EMPTY_TEXT)]
    ∧ visible (analyzeTextClick fastEnv blankRun).dom.textError.classList :=
  ⟨by decide,
   (analyzeTextClick_blank fastEnv blankRun (by decide)).1,
   (analyzeTextClick_blank fastEnv blankRun (by decide)).2.2.2.2.2⟩

/-- C4 (as stated, refuted): the clock ticks once between the reading of `start`
and `showLoading(true)`, and the server answers after 6 ms. The indicator goes on
display at 1001 and off at 1350, which is 349 ms later. -/
theorem indicator_shown_349_after_tick :
    trim sampleRun.dom.emailText ≠ []
    ∧ loadingEvents (analyzeTextClick tickEnv sampleRun).log = [(1001, true), (1350, false)]
    ∧ indicatorTimeline (analyzeTextClick tickEnv sampleRun).trace
        = [(1000, false), (1000, false), (1001, true), (1001, true), (1007, true),
            (1350, true), (1350, false)]
    ∧ 1350 - 1001 < 350 := by
  decide

/-- C4 (amended): in both modes, on a page that has the loading overlay, a
submission that passes validation and starts at clock reading `start` puts the
indicator on display at `start` plus the time the clock advanced before
`showLoading(true)`, keeps it on display after every later call but the last, and
takes it off display with the last call, `showLoading(false)`, at a reading at
least 350 ms after `start`, whatever the server answers and however long it takes;
`showLoading` is called exactly these two times. -/
theorem indicator_hidden_350_after_start (env : Env) (r : Run)
    (ho : r.dom.loadingOverlay.isSome = true) :
    (trim r.dom.emailText ≠ [] →
      ∃ during,
        indicatorTimeline (analyzeTextClick env r).trace
          = indicatorTimeline r.trace
            ++ [(r.now, indicatorShown r.dom), (r.now, indicatorShown r.dom),
                (r.now + env.showLag, true)]
            ++ during ++ [((analyzeTextClick env r).now, false)]
        ∧ (∀ entry ∈ during, entry.2 = true)
        ∧ loadingEvents (analyzeTextClick env r).log
          = loadingEvents r.log
            ++ [(r.now + env.showLag, true), ((analyzeTextClick env r).now, false)]
        ∧ r.now + 350 ≤ (analyzeTextClick env r).now)
    ∧ (∀ file rest, r.dom.emailFile = some (file :: rest) →
      ∃ during,
        indicatorTimeline (analyzeFileClick env r).trace
          = indicatorTimeline r.trace
            ++ [(r.now, indicatorShown r.dom), (r.now, indicatorShown r.dom),
                (r.now + env.showLag, true)]
            ++ during ++ [((analyzeFileClick env r).now, false)]
        ∧ (∀ entry ∈ during, entry.2 = true)
        ∧ loadingEvents (analyzeFileClick env r).log
          = loadingEvents r.log
            ++ [(r.now + env.showLag, true), ((analyzeFileClick env r).now, false)]
        ∧ r.now + 350 ≤ (analyzeFileClick env r).now) := by
  constructor
  · intro h
    rw [analyzeTextClick_valid env r h]
    obtain ⟨during, h1, h2⟩ := submission_indicator env r _ _ _ _ isReport_text ho
    obtain ⟨h3, h4⟩ := submission_loading env r (textRequest r) MSG_TEXT_FAILED _ _ isReport_text
    exact ⟨during, h1, h2, h3, h4⟩
  · intro file rest h
    rw [analyzeFileClick_valid env r file rest h]
    obtain ⟨during, h1, h2⟩ := submission_indicator env r _ _ _ _ isReport_file ho
    obtain ⟨h3, h4⟩ := submission_loading env r (fileRequest file) MSG_FILE_FAILED _ _ isReport_file
    exact ⟨during, h1, h2, h3, h4⟩

/-- C4 (amended), at a server that answers after 6 ms on a clock that ticks once
before `showLoading(true)`: in both modes the indicator is on display from 1001
and off display at 1350, 350 ms after the start at 1000. -/
theorem indicator_hidden_350_after_start_witness :
    sampleRun.dom.loadingOverlay.isSome = true
    ∧ trim sampleRun.dom.emailText ≠ []
    ∧ sampleRun.dom.emailFile = some [⟨"mail.txt".toList, [79, 105]⟩]
    ∧ indicatorTimeline (analyzeFileClick tickEnv sampleRun).trace
        = [(1000, false), (1000, false), (1001, true), (1001, true), (1007, true),
            (1350, true), (1350, false)]
    ∧ sampleRun.now + 350 ≤ (analyzeTextClick tickEnv sampleRun).now
    ∧ sampleRun.now + 350 ≤ (analyzeFileClick tickEnv sampleRun).now :=
  ⟨by decide, by decide, rfl, by decide,
   Exists.elim ((indicator_hidden_350_after_start tickEnv sampleRun (by decide)).1 (by decide))
     (fun _ h => h.2.2.2),
   Exists.elim ((indicator_hidden_350_after_start tickEnv sampleRun (by decide)).2 _ _ rfl)
     (fun _ h => h.2.2.2)⟩

/-- C9: in both modes, for a submission that passes validation and whatever the
server answers, the last call the handler makes is `showLoading(false)`; the page
has a loading overlay after the handler exactly when it had one before, and that
overlay carries the class `hidden` when the handler ends. -/
theorem loading_hidden_on_every_exit (env : Env) (r : Run) :
    (trim r.dom.emailText ≠ [] →
      (analyzeTextClick env r).log.getLast?
          = some ((analyzeTextClick env r).now, .showLoading false)
      ∧ (analyzeTextClick env r).dom.loadingOverlay.isSome = r.dom.loadingOverlay.isSome
      ∧ ∀ cl, (analyzeTextClick env r).dom.loadingOverlay = some cl → ¬ visible cl)
    ∧ (∀ file rest, r.dom.emailFile = some (file :: rest) →
      (analyzeFileClick env r).log.getLast?
          = some ((analyzeFileClick env r).now, .showLoading false)
      ∧ (analyzeFileClick env r).dom.loadingOverlay.isSome = r.dom.loadingOverlay.isSome
      ∧ ∀ cl, (analyzeFileClick env r).dom.loadingOverlay = some cl → ¬ visible cl) := by
  constructor
  · intro h
    exact submission_hides_loading env r _ _ _ _ isReport_text (fun _ _ => rfl) _
      (analyzeTextClick_valid env r h)
  · intro file rest h
    exact submission_hides_loading env r _ _ _ _ isReport_file (fun _ _ => rfl) _
      (analyzeFileClick_valid env r file rest h)

/-- C9, at a server that rejects the submission: both handlers end with
`showLoading(false)` at 1350 and with the overlay hidden. -/
theorem loading_hidden_on_every_exit_witness :
    trim sampleRun.dom.emailText ≠ []
    ∧ sampleRun.dom.emailFile = some [⟨"mail.txt".toList, [79, 105]⟩]
    ∧ (analyzeTextClick tooLargeEnv sampleRun).log.getLast? = some (1350, .showLoading false)
    ∧ (analyzeFileClick tooLargeEnv sampleRun).log.getLast? = some (1350, .showLoading false)
    ∧ (analyzeTextClick tooLargeEnv sampleRun).dom.loadingOverlay = some ["overlay", "hidden"]
    ∧ (∀ cl, (analyzeFileClick tooLargeEnv sampleRun).dom.loadingOverlay = some cl → ¬ visible cl) :=
  ⟨by decide, rfl, by decide, by decide, by decide,
   ((loading_hidden_on_every_exit tooLargeEnv sampleRun).2 _ _ rfl).2.2⟩

/-- C3 (as stated, refuted): the server rejects a file with a body whose `detail`
is present and is the empty string; the file banner does not show that detail, it
shows the generic message of line 277. -/
theorem empty_detail_shows_generic_message :
    emptyDetailEnv.fetch (fileRequest ⟨"mail.txt".toList, [79, 105]⟩)
        = .response false (.object ⟨none, none, none, none, some []⟩)
    ∧ sampleRun.dom.emailFile = some [⟨"mail.txt".toList, [79, 105]⟩]
    ∧ (analyzeFileClick emptyDetailEnv sampleRun).dom.fileError.textContent
        = "Erro ao analisar o arquivo.".toList
    ∧ (analyzeFileClick emptyDetailEnv sampleRun).dom.fileError.textContent ≠ [] := by
  decide

/-- C3 (amended): in both modes, after a response that is not `ok` the banner of
the mode is visible; it shows exactly the `detail` of the body when the body
decodes to an object with a non-empty `detail`, and the generic message of the mode
when the body cannot be decoded, is `null`, has no `detail` or has an empty one. -/
theorem rejected_response_banner (env : Env) (r : Run) (body : JsonBody) :
    (trim r.dom.emailText ≠ [] → env.fetch (textRequest r) = .response false body →
      visible (analyzeTextClick env r).dom.textError.classList
      ∧ (∀ o dt, body = .object o → o.detail = some dt → dt ≠ [] →
          (analyzeTextClick env r).dom.textError.textContent = dt)
      ∧ ((body = .unparsable ∨ body = .null ∨
            ∃ o, body = .object o ∧ (o.detail = none ∨ o.detail = some [])) →
          (analyzeTextClick env r).dom.textError.textContent = MSG_TEXT_FAILED))
    ∧ (∀ file rest, r.dom.emailFile = some (file :: rest) →
      env.fetch (fileRequest file) = .response false body →
      visible (analyzeFileClick env r).dom.fileError.classList
      ∧ (∀ o dt, body = .object o → o.detail = some dt → dt ≠ [] →
          (analyzeFileClick env r).dom.fileError.textContent = dt)
      ∧ ((body = .unparsable ∨ body = .null ∨
            ∃ o, body = .object o ∧ (o.detail = none ∨ o.detail = some [])) →
          (analyzeFileClick env r).dom.fileError.textContent = MSG_FILE_FAILED)) := by
  constructor
  · intro h hf
    have hb := (analyzeTextClick_banners env r h).2
    rw [hf] at hb
    rw [hb]
    exact showError_errorMessage MSG_TEXT_FAILED body _ (by decide)
  · intro file rest h hf
    have hb := (analyzeFileClick_banners env r file rest h).2
    rw [hf] at hb
    rw [hb]
    exact showError_errorMessage MSG_FILE_FAILED body _ (by decide)

/-- C3 (amended), at a server that rejects with the detail `file too large`: the
file banner is visible and shows exactly that text. -/
theorem rejected_response_banner_witness :
    sampleRun.dom.emailFile = some [⟨"mail.txt".toList, [79, 105]⟩]
    ∧ tooLargeEnv.fetch (fileRequest ⟨"mail.txt".toList, [79, 105]⟩)
        = .response false (.object ⟨none, none, none, none, some "file too large".toList⟩)
    ∧ visible (analyzeFileClick tooLargeEnv sampleRun).dom.fileError.classList
    ∧ (analyzeFileClick tooLargeEnv sampleRun).dom.fileError.textContent
        = "file too large".toList :=
  ⟨rfl, rfl,
   ((rejected_response_banner tooLargeEnv sampleRun _).2 _ _ rfl rfl).1,
   ((rejected_response_banner tooLargeEnv sampleRun _).2 _ _ rfl rfl).2.1 _ _ rfl rfl (by decide)⟩

/-- C10: in both modes, from any prior state of the two banners and whatever the
server answers, when the handler ends the banner of the other mode is empty and
hidden, and the banner of the submitting mode is visible exactly when the outcome
is not a success and empty exactly when it is one. -/
theorem banners_after_submission (env : Env) (r : Run) :
    ((analyzeTextClick env r).dom.fileError.textContent = []
      ∧ ¬ visible (analyzeTextClick env r).dom.fileError.classList
      ∧ (visible (analyzeTextClick env r).dom.textError.classList
          ↔ textOutcome env r ≠ .success)
      ∧ ((analyzeTextClick env r).dom.textError.textContent = []
          ↔ textOutcome env r = .success))
    ∧ ((analyzeFileClick env r).dom.textError.textContent = []
      ∧ ¬ visible (analyzeFileClick env r).dom.textError.classList
      ∧ (visible (analyzeFileClick env r).dom.fileError.classList
          ↔ fileOutcome env r ≠ .success)
      ∧ ((analyzeFileClick env r).dom.fileError.textContent = []
          ↔ fileOutcome env r = .success)) := by
  have hc : MSG_CONNECTION ≠ [] := by decide
  have ht : ∀ body, errorMessage MSG_TEXT_FAILED body ≠ [] :=
    fun body => errorMessage_ne_nil _ body (by decide)
  have hfm : ∀ body, errorMessage MSG_FILE_FAILED body ≠ [] :=
    fun body => errorMessage_ne_nil _ body (by decide)
  constructor
  · by_cases h : trim r.dom.emailText = []
    · have hrun : analyzeTextClick env r
          = reportText MSG_EMPTY_TEXT (reportFile [] (reportText [] r)) := by
        simp [analyzeTextClick, reportText, reportFile, Run.call, showTextError, showFileError,
          orElse_some_nil, h, truthy]
      have hm : MSG_EMPTY_TEXT ≠ [] := by decide
      have hd : (analyzeTextClick env r).dom.textError
          = showError MSG_EMPTY_TEXT (showError [] r.dom.textError) := by
        rw [hrun]; rfl
      have hfe : (analyzeTextClick env r).dom.fileError = showError [] r.dom.fileError := by
        rw [hrun]; rfl
      rw [hd, hfe]
      simp [showError_textContent, showError_visible, textOutcome, h, hm]
    · obtain ⟨hfe, hte⟩ := analyzeTextClick_banners env r h
      rw [hfe, hte]
      simp only [textOutcome, h, if_false]
      change _ ∧ _ ∧ (_ ↔ responseOutcome (env.fetch (textRequest r)) ≠ _)
        ∧ (_ ↔ responseOutcome (env.fetch (textRequest r)) = _)
      cases env.fetch (textRequest r) with
      | rejected => simp [showError_textContent, showError_visible, responseOutcome, hc]
      | response ok body =>
        cases ok with
        | false => simp [showError_textContent, showError_visible, responseOutcome, ht]
        | true =>
          cases body <;>
            simp [showError_textContent, showError_visible, responseOutcome, hc]
  · cases hfiles : r.dom.emailFile with
    | none =>
      have hrun : analyzeFileClick env r
          = reportFile MSG_NO_FILE (reportFile [] (reportText [] r)) := by
        simp [analyzeFileClick, reportText, reportFile, Run.call, showTextError, showFileError,
          hfiles]
      have hm : MSG_NO_FILE ≠ [] := by decide
      have hd : (analyzeFileClick env r).dom.fileError
          = showError MSG_NO_FILE (showError [] r.dom.fileError) := by
        rw [hrun]; rfl
      have hte : (analyzeFileClick env r).dom.textError = showError [] r.dom.textError := by
        rw [hrun]; rfl
      rw [hd, hte]
      simp [showError_textContent, showError_visible, fileOutcome, hfiles, hm]
    | some files =>
      cases files with
      | nil =>
        have hrun : analyzeFileClick env r
            = reportFile MSG_NO_FILE (reportFile [] (reportText [] r)) := by
          simp [analyzeFileClick, reportText, reportFile, Run.call, showTextError, showFileError,
            hfiles]
        have hm : MSG_NO_FILE ≠ [] := by decide
        have hd : (analyzeFileClick env r).dom.fileError
            = showError MSG_NO_FILE (showError [] r.dom.fileError) := by
          rw [hrun]; rfl
        have hte : (analyzeFileClick env r).dom.textError = showError [] r.dom.textError := by
          rw [hrun]; rfl
        rw [hd, hte]
        simp [showError_textContent, showError_visible, fileOutcome, hfiles, hm]
      | cons file rest =>
        obtain ⟨hte, hfe⟩ := analyzeFileClick_banners env r file rest hfiles
        rw [hfe, hte]
        simp only [fileOutcome, hfiles]
        change _ ∧ _ ∧ (_ ↔ responseOutcome (env.fetch (fileRequest file)) ≠ _)
          ∧ (_ ↔ responseOutcome (env.fetch (fileRequest file)) = _)
        cases env.fetch (fileRequest file) with
        | rejected => simp [showError_textContent, showError_visible, responseOutcome, hc]
        | response ok body =>
          cases ok with
          | false => simp [showError_textContent, showError_visible, responseOutcome, hfm]
          | true =>
            cases body <;>
              simp [showError_textContent, showError_visible, responseOutcome, hc]

/-- C5: rendering a result `b` after a result `a` leaves the page exactly as
rendering `b` alone does, whatever the page was before. -/
theorem showResult_overwrites (a b : JsonObject) (d : Dom) :
    showResult b (showResult a d) = showResult b d := by
  unfold showResult
  cases hsub : d.subCategoryText <;>
    simp [hsub, classList.remove_add_of_subset _ _ _ (badgeClasses_subset _),
      classList.remove_remove]

/-- C6: from any state left by `setInputMode("text")`, switching to the file mode
and back to the text mode restores the state: every element of the mode switch has
the same set of classes as before (so the same hidden state of both panels, the
same thumb class and the same highlight classes on both buttons), and nothing else
on the page has changed. -/
theorem setInputMode_text_file_text (page : Dom) :
    sameModeView
      (setInputMode "text".toList (setInputMode "file".toList (setInputMode "text".toList page)))
      (setInputMode "text".toList page) := by
  by_cases hp : modeSwitchPresent page
  · obtain ⟨thumb, pText, pFile, bText, bFile, h1, h2, h3, h4, h5⟩ :=
      (modeSwitchPresent_iff page).1 hp
    rw [setInputMode_text page _ _ _ _ _ h1 h2 h3 h4 h5]
    rw [setInputMode_file _ _ _ _ _ _ rfl rfl rfl rfl rfl]
    rw [setInputMode_text _ _ _ _ _ _ rfl rfl rfl rfl rfl]
    refine ⟨?_, ?_, ?_, ?_, ?_, rfl⟩ <;>
      · intro c
        simp only [classList.mem_add, classList.mem_remove]
        tauto
  · rw [setInputMode_of_absent _ page hp, setInputMode_of_absent _ page hp,
      setInputMode_of_absent _ page hp]
    exact sameModeView_refl page

/-- C7: on a page that has the five elements of the mode switch, after start-up and
any sequence of mode selections exactly one of the two panels is visible, it is the
panel of the mode set last (the text mode when none was selected), and the thumb
and the two buttons mark that mode. -/
theorem selectModes_showsMode (page : Dom) (modes : List InputMode)
    (h : modeSwitchPresent page) :
    ShowsMode (currentMode modes) (selectModes page modes) := by
  rcases List.eq_nil_or_concat modes with rfl | ⟨ms, m, rfl⟩
  · exact setInputMode_showsMode .text page h
  · rw [List.concat_eq_append, selectModes_concat]
    have hm : currentMode (ms ++ [m]) = m := by simp [currentMode]
    rw [hm]
    exact setInputMode_showsMode m _ (selectModes_present page ms h)

/-- C7, on the sample page after the selections file, text, file: the file panel
is the visible one. -/
theorem selectModes_showsMode_witness :
    modeSwitchPresent samplePage
    ∧ ShowsMode .file (selectModes samplePage [.file, .text, .file]) :=
  ⟨by decide, selectModes_showsMode samplePage [.file, .text, .file] (by decide)⟩

/-- C8: when `sub_category` is absent or empty, `showResult` writes the dash to the
sub-category element (if the page has one), never the empty string nor the text
`undefined`. -/
theorem showResult_subCategory_placeholder (data : JsonObject) (d : Dom)
    (h : data.sub_category = none ∨ data.sub_category = some []) :
    (showResult data d).subCategoryText = d.subCategoryText.map (fun _ => "—".toList)
    ∧ (showResult data d).subCategoryText ≠ some []
    ∧ (showResult data d).subCategoryText ≠ some "undefined".toList := by
  have key : (showResult data d).subCategoryText = d.subCategoryText.map (fun _ => "—".toList) := by
    unfold showResult
    rcases h with h | h <;> simp [h, orElse]
  rw [key]
  refine ⟨rfl, ?_, ?_⟩ <;> cases d.subCategoryText <;> simp

/-- C8, for a classification without `sub_category` rendered on the sample page:
the sub-category element shows the dash. -/
theorem showResult_subCategory_placeholder_witness :
    (showResult ⟨some "Produtivo".toList, none, some "pedido".toList, none, none⟩
        samplePage).subCategoryText = some "—".toList
    ∧ (showResult ⟨some "Produtivo".toList, none, some "pedido".toList, none, none⟩
        samplePage).subCategoryText ≠ some "undefined".toList :=
  ⟨(showResult_subCategory_placeholder
      ⟨some "Produtivo".toList, none, some "pedido".toList, none, none⟩ samplePage
      (Or.inl rfl)).1,
   (showResult_subCategory_placeholder
      ⟨some "Produtivo".toList, none, some "pedido".toList, none, none⟩ samplePage
      (Or.inl rfl)).2.2⟩

end EmailApp
